import Mathlib

/-!
# DistinctStep, ConnectionTestStats and JSONString

A shallow embedding of `src/Processors/QueryPlan/DistinctStep.cpp` (the plan step that
decides how duplicate rows are removed), of `ConnectionTestStats::updateMinTime`
from `dbms/programs/performance-test/TestStats.cpp` and of `JSONString::asString`
from `dbms/programs/performance-test/JSONString.cpp`, with the properties the
specification states about them.

Machine integers (`UInt64`, `size_t`) are natural numbers. The code of the first two
files only compares and divides them, so no operation can leave the 64-bit range;
the `size_t` product and difference of `JSONString.cpp` are taken modulo 2^64, and
`asString` yields either its text or the failure that kept it from returning it.
-/

namespace DB

/-! ## Data model -/

/-- The type `Names`: a vector of column names. -/
abbrev Names := List String

/-- The type `NameSet`: an unordered set of column names. -/
abbrev NameSet := Finset String

/-- The call `distinct_names.count(name)` on an unordered set: 1 for a member, 0 otherwise. -/
def NameSet.count (distinct_names : NameSet) (name : String) : Nat :=
  if name ∈ distinct_names then 1 else 0

/-- The call `distinct_columns.empty()`. -/
def NameSet.empty (distinct_names : NameSet) : Bool :=
  decide (distinct_names = ∅)

/-- Modelled from the spec: the schema of a stream ("same schema"); the `Block`
class is declared outside the sampled sources, only the column names are kept. -/
structure Block where
  names : List String
  deriving DecidableEq

/-- Modelled from the spec: the stream descriptor ("schema + distinct-columns
metadata + current lane count"); the fields are the ones `DistinctStep.cpp` reads
and writes (`header`, `distinct_columns`, `has_single_port`). -/
structure DataStream where
  header : Block
  distinct_columns : NameSet
  has_single_port : Bool
  deriving DecidableEq

/-- The struct `ITransformingStep::DataStreamTraits`, with the three fields `getTraits` sets. -/
structure DataStreamTraits where
  preserves_distinct_columns : Bool
  returns_single_stream : Bool
  preserves_number_of_streams : Bool
  deriving DecidableEq

/-- Modelled from the spec: the overflow policy of the size limits ("fail vs.
cap-and-passthrough"). -/
inductive OverflowMode
  | THROW
  | BREAK
  deriving DecidableEq

/-- Modelled from the spec: size limits ("caps on row count and/or byte footprint of
the bounded set structure, plus an overflow policy"). -/
structure SizeLimits where
  max_rows : Nat
  max_bytes : Nat
  overflow_mode : OverflowMode
  deriving DecidableEq

/-- Modelled from the spec: one column of the sort-prefix descriptor ("the ordered
list of columns the input stream is guaranteed sorted by"). -/
structure SortColumnDescription where
  column_name : String
  direction : Int
  nulls_direction : Int
  deriving DecidableEq

/-- The type `SortDescription`: the ordered list of sort columns. -/
abbrev SortDescription := List SortColumnDescription

/-- Modelled from the spec: the sort-prefix descriptor handed to the step; the source
reads its member `order_key_prefix_descr`. -/
structure InputOrderInfo where
  order_key_prefix_descr : SortDescription
  direction : Int
  deriving DecidableEq

/-- The type `InputOrderInfoPtr`: a shared pointer, null when the input has no known order. -/
abbrev InputOrderInfoPtr := Option InputOrderInfo

/-- The names of the columns of a sort-prefix descriptor. -/
def InputOrderInfo.columnNames (distinct_info : InputOrderInfo) : List String :=
  distinct_info.order_key_prefix_descr.map SortColumnDescription.column_name

/-- The enumeration `QueryPipeline::StreamType`. -/
inductive StreamType
  | Main
  | Totals
  | Extremes
  deriving DecidableEq

/-- The two processors `transformPipeline` creates, each with the arguments the
source passes to `std::make_shared`. -/
inductive Processor
  | DistinctSortedTransform (header : Block) (set_size_limits : SizeLimits)
      (limit_hint : Nat) (sort_description : SortDescription) (columns : Names)
  | DistinctTransform (header : Block) (set_size_limits : SizeLimits)
      (limit_hint : Nat) (columns : Names)
  deriving DecidableEq

/-- Modelled from the spec: an output port of the pipeline framework, described by
what feeds it: a source lane, a transform attached to a lane, or output `index` of a
lane-collapse ("a lane-collapse-to-one operation") over the lanes `inputs`. -/
inductive Port
  | source (id : Nat)
  | transform (processor : Processor) (input : Port)
  | resize (inputs : List Port) (num_streams : Nat) (index : Nat)

/-- The operations `transformPipeline` invokes on the pipeline. -/
inductive PipelineCall
  | resize (num_streams : Nat)
  | addSimpleTransform
  deriving DecidableEq

/-- Modelled from the spec: the pipeline framework's `QueryPipeline` (declared outside
the sampled sources): the current main lanes, the optional totals and extremes
lanes, the current header, and the operations invoked on it so far. -/
structure QueryPipeline where
  header : Block
  streams : List Port
  totals : Option Port
  extremes : Option Port
  calls : List PipelineCall

/-- Modelled from the spec: `QueryPipeline::resize(num_streams)`, "a
lane-collapse-to-one operation" for `num_streams = 1`: the main lanes are replaced
by the `num_streams` outputs of one resize over all of them. -/
def QueryPipeline.resize (pipeline : QueryPipeline) (num_streams : Nat) : QueryPipeline :=
  { pipeline with
    streams := (List.range num_streams).map (Port.resize pipeline.streams num_streams)
    calls := pipeline.calls ++ [PipelineCall.resize num_streams] }

/-- Modelled from the spec: `QueryPipeline::addSimpleTransform(getter)`, "a factory
producing one configured operator instance per lane": the getter is asked once per
lane with the header and the lane's type; a null result leaves the lane as it is. -/
def QueryPipeline.addSimpleTransform (pipeline : QueryPipeline)
    (getter : Block → StreamType → Option Processor) : QueryPipeline :=
  let add (stream_type : StreamType) (port : Port) : Port :=
    match getter pipeline.header stream_type with
    | some processor => Port.transform processor port
    | none => port
  { pipeline with
    streams := pipeline.streams.map (add StreamType.Main)
    totals := pipeline.totals.map (add StreamType.Totals)
    extremes := pipeline.extremes.map (add StreamType.Extremes)
    calls := pipeline.calls ++ [PipelineCall.addSimpleTransform] }

/-- The operations invoked on the pipeline between `before` and `after`. -/
def QueryPipeline.callsSince (before after : QueryPipeline) : List PipelineCall :=
  after.calls.drop before.calls.length

/-- True for a lane whose last processor is a `DistinctSortedTransform`. -/
def Port.isDistinctSorted : Port → Bool
  | Port.transform (Processor.DistinctSortedTransform _ _ _ _ _) _ => true
  | _ => false

/-- True for a lane whose last processor is a `DistinctTransform`. -/
def Port.isDistinctHash : Port → Bool
  | Port.transform (Processor.DistinctTransform _ _ _ _) _ => true
  | _ => false

/-! ## DistinctStep.cpp -/

/-- Function `checkColumnsAlreadyDistinct` (DistinctStep.cpp, lines 9-17): the loop over
`columns` clears the flag at every name the set does not hold. -/
def checkColumnsAlreadyDistinct (columns : Names) (distinct_names : NameSet) : Bool :=
  columns.foldl
    (fun columns_already_distinct name =>
      if NameSet.count distinct_names name == 0 then false else columns_already_distinct)
    true

/-- Function `getTraits` (DistinctStep.cpp, lines 19-27). -/
def getTraits (pre_distinct already_distinct_columns : Bool) : DataStreamTraits :=
  { preserves_distinct_columns := already_distinct_columns
    returns_single_stream := !pre_distinct && !already_distinct_columns
    preserves_number_of_streams := pre_distinct || already_distinct_columns }

/-- Modelled from the spec: the output descriptor the base step
(`ITransformingStep`, declared outside the sampled sources) builds from the input
descriptor, the output header and the traits: the distinct-column set is the
input's when `preserves_distinct_columns` is true and empty otherwise ("output
metadata copies input metadata"); the lane flag follows the two lane traits. -/
def ITransformingStep.createOutputStream (input_stream : DataStream) (output_header : Block)
    (stream_traits : DataStreamTraits) : DataStream :=
  { header := output_header
    distinct_columns :=
      if stream_traits.preserves_distinct_columns then input_stream.distinct_columns else ∅
    has_single_port :=
      stream_traits.returns_single_stream
        || (input_stream.has_single_port && stream_traits.preserves_number_of_streams) }

/-- The state of a `DistinctStep`. `input_stream` is `input_streams.front()`: a
transforming step has exactly the one input stream given to its base constructor. -/
structure DistinctStep where
  input_stream : DataStream
  output_stream : DataStream
  set_size_limits : SizeLimits
  limit_hint : Nat
  columns : Names
  pre_distinct : Bool
  distinct_info : InputOrderInfoPtr
  deriving DecidableEq

/-- The condition of the `if` in the constructor body (DistinctStep.cpp, lines
47-49), on the output descriptor left by the base step. -/
def DistinctStep.buildsDistinctSet (output_stream input_stream_ : DataStream)
    (pre_distinct : Bool) : Bool :=
  !NameSet.empty output_stream.distinct_columns
    && (!pre_distinct || input_stream_.has_single_port)

/-- The loop of the constructor body (DistinctStep.cpp, lines 52-53): every
configured name is inserted into the set. -/
def DistinctStep.insertColumns (columns : Names) (distinct_columns : NameSet) : NameSet :=
  columns.foldl (fun set name => insert name set) distinct_columns

/-- Constructor `DistinctStep::DistinctStep` (DistinctStep.cpp, lines 30-55): the base step builds
the output descriptor from the traits, then the body may insert the configured
columns. -/
def DistinctStep.new (input_stream_ : DataStream) (set_size_limits_ : SizeLimits)
    (limit_hint_ : Nat) (columns_ : Names) (pre_distinct_ : Bool)
    (distinct_info_ : InputOrderInfoPtr) : DistinctStep :=
  let output_stream := ITransformingStep.createOutputStream input_stream_ input_stream_.header
    (getTraits pre_distinct_ (checkColumnsAlreadyDistinct columns_ input_stream_.distinct_columns))
  let output_stream :=
    if DistinctStep.buildsDistinctSet output_stream input_stream_ pre_distinct_ then
      { output_stream with
        distinct_columns := DistinctStep.insertColumns columns_ output_stream.distinct_columns }
    else output_stream
  { input_stream := input_stream_
    output_stream := output_stream
    set_size_limits := set_size_limits_
    limit_hint := limit_hint_
    columns := columns_
    pre_distinct := pre_distinct_
    distinct_info := distinct_info_ }

/-- Method `DistinctStep::transformPipeline` (DistinctStep.cpp, lines 57-85). The first
branch of the `match` is the source's `if (pre_distinct && distinct_info)`, a test
of the flag and of the pointer being non-null; the getter then reads
`distinct_info->order_key_prefix_descr`. -/
def DistinctStep.transformPipeline (step : DistinctStep) (pipeline : QueryPipeline) :
    QueryPipeline :=
  if checkColumnsAlreadyDistinct step.columns step.input_stream.distinct_columns then
    pipeline
  else
    let pipeline := if !step.pre_distinct then pipeline.resize 1 else pipeline
    match step.pre_distinct, step.distinct_info with
    | true, some distinct_info =>
      pipeline.addSimpleTransform (fun header stream_type =>
        if stream_type ≠ StreamType.Main then none
        else some (Processor.DistinctSortedTransform header step.set_size_limits
          step.limit_hint distinct_info.order_key_prefix_descr step.columns))
    | _, _ =>
      pipeline.addSimpleTransform (fun header stream_type =>
        if stream_type ≠ StreamType.Main then none
        else some (Processor.DistinctTransform header step.set_size_limits
          step.limit_hint step.columns))

/-! ## TestStats.cpp -/

/-- Modelled from the spec: the `Stopwatch` of the statistics tool (declared outside
the sampled sources); real time is not represented, the watch counts how often it
was restarted. -/
structure Stopwatch where
  restarts : Nat
  deriving DecidableEq

/-- Method `Stopwatch::restart`. -/
def Stopwatch.restart (watch : Stopwatch) : Stopwatch :=
  { restarts := watch.restarts + 1 }

/-- The members of `ConnectionTestStats` that `updateMinTime` reads and writes;
`min_time` is a `UInt64` number of microseconds. -/
structure ConnectionTestStats where
  min_time : Nat
  min_time_watch : Stopwatch
  deriving DecidableEq

/-- Method `ConnectionTestStats::updateMinTime` (TestStats.cpp, lines 60-70): the minimum
is overwritten first, the millisecond comparison then reads the overwritten
member. -/
def ConnectionTestStats.updateMinTime (stats : ConnectionTestStats)
    (min_time_candidate : Nat) : ConnectionTestStats :=
  if min_time_candidate < stats.min_time then
    let stats := { stats with min_time := min_time_candidate }
    if min_time_candidate / 1000 < stats.min_time / 1000 then
      { stats with min_time_watch := stats.min_time_watch.restart }
    else stats
  else stats

/-! ## JSONString.cpp -/

/-- The size of the range of `size_t`: 2^64. -/
def SIZE_RANGE : Nat := 2 ^ 64

/-- Unsigned `size_t` subtraction `a - b` of operands below 2^64: it wraps modulo
2^64 when `b` exceeds `a`. -/
def sizeSub (a b : Nat) : Nat :=
  (a + SIZE_RANGE - b) % SIZE_RANGE

/-- A string of `count` spaces: `std::string(count, ' ')`. -/
def spaces (count : Nat) : String :=
  String.mk (List.replicate count ' ')

/-- The limits of `std::string` in the running program, which the sources do not
fix: `max_size` is `std::string::max_size()`, `available` the longest text the
allocator still finds memory for, in a string as in the buffer of a stream. -/
structure StringLimits where
  max_size : Nat
  available : Nat
  deriving DecidableEq

/-- True when a string of `length` characters can be created under the limits. -/
def StringLimits.fits (limits : StringLimits) (length : Nat) : Bool :=
  decide (length ≤ limits.max_size) && decide (length ≤ limits.available)

/-- The ways `asString` can fail to return its text: `std::length_error` and
`std::bad_alloc` thrown by the `std::string` constructor, and a stream that went bad
because its buffer could not grow: the stream does not throw, it drops what is
inserted from then on, and which text it still yields is not represented. -/
inductive Failure
  | length_error
  | bad_alloc
  | stream_bad
  deriving DecidableEq

/-- The constructor `std::string(count, ' ')`: it throws `std::length_error` when
`count` exceeds `max_size()` and `std::bad_alloc` when the memory is not there. -/
def newSpaces (limits : StringLimits) (count : Nat) : Except Failure String :=
  if limits.max_size < count then Except.error Failure.length_error
  else if limits.available < count then Except.error Failure.bad_alloc
  else Except.ok (spaces count)

/-- Function `pad` (JSONString.cpp, lines 11-14): `padding * 4` is a `size_t` product,
taken modulo 2^64, and the constructor may throw. -/
def pad (limits : StringLimits) (padding : Nat) : Except Failure String :=
  newSpaces limits (padding * 4 % SIZE_RANGE)

/-- A `std::ostringstream`: the text inserted so far and the `badbit`. -/
structure OStringStream where
  text : String
  bad : Bool
  deriving DecidableEq

/-- A freshly constructed `std::ostringstream`. -/
def OStringStream.empty : OStringStream :=
  { text := "", bad := false }

/-- The insertion `stream << piece`: it never throws; when the buffer cannot grow to
hold the piece the stream goes bad, and a bad stream ignores insertions. -/
def OStringStream.insert (limits : StringLimits) (stream : OStringStream) (piece : String) :
    OStringStream :=
  if stream.bad then stream
  else if limits.fits (stream.text.length + piece.length) then
    { stream with text := stream.text ++ piece }
  else { stream with bad := true }

/-- The call `stream.str()`: the whole text when every insertion succeeded. -/
def OStringStream.str (stream : OStringStream) : Except Failure String :=
  if stream.bad then Except.error Failure.stream_bad else Except.ok stream.text

/-- The members of `JSONString`: `content` is the `std::map` from key to value, kept
as the list of its entries in iteration order (ascending keys, each key once);
`padding` is the indentation given at construction. -/
structure JSONString where
  content : List (String × String)
  padding : Nat
  deriving DecidableEq

/-- A `JSONString` right after construction: nothing stored. -/
def JSONString.new (padding : Nat) : JSONString :=
  { content := [], padding := padding }

/-- The assignment `content[key] = value` on the entries of a `std::map`: the value of
a stored key is replaced in place; a new key is put before the first greater key.
Keys are ordered as `std::less<std::string>` orders them, character by character. -/
def mapAssign (key value : String) : List (String × String) → List (String × String)
  | [] => [(key, value)]
  | (stored, old) :: rest =>
    if key.toList < stored.toList then (key, value) :: (stored, old) :: rest
    else if key = stored then (stored, value) :: rest
    else (stored, old) :: mapAssign key value rest

/-- Method `JSONString::set(key, value)` for a string value (JSONString.cpp, lines
18-21). -/
def JSONString.set (json : JSONString) (key value : String) : JSONString :=
  { json with content := mapAssign key value json.content }

/-- The loop of `asString` (JSONString.cpp, lines 46-52) from the iterator position
holding `entries`; `at_begin` tells whether the iterator is `content.begin()`, `repr`
is the stream. An exception of `pad` leaves the function. -/
def JSONString.asStringLoop (limits : StringLimits) (cur_padding : Nat) :
    Bool → List (String × String) → OStringStream → Except Failure OStringStream
  | _, [], repr => Except.ok repr
  | at_begin, (key, value) :: rest, repr =>
    let repr := if !at_begin then repr.insert limits "," else repr
    match pad limits cur_padding with
    | Except.error failure => Except.error failure
    | Except.ok padding =>
      let repr := ((((((repr.insert limits "\n").insert limits padding).insert limits
        "\"").insert limits key).insert limits "\"").insert limits ": ").insert limits value
      JSONString.asStringLoop limits cur_padding false rest repr

/-- Method `JSONString::asString(cur_padding)` (JSONString.cpp, lines 41-56);
`cur_padding - 1` is the unsigned subtraction. The result is the returned text, or
the exception that left the function, or the report that the stream went bad. -/
def JSONString.asString (limits : StringLimits) (json : JSONString) (cur_padding : Nat) :
    Except Failure String :=
  let repr := OStringStream.empty.insert limits "\x7b"
  match JSONString.asStringLoop limits cur_padding true json.content repr with
  | Except.error failure => Except.error failure
  | Except.ok repr =>
    match pad limits (sizeSub cur_padding 1) with
    | Except.error failure => Except.error failure
    | Except.ok padding =>
      (((repr.insert limits "\n").insert limits padding).insert limits "\x7d").str

/-- Size limits without any cap. -/
def unlimited : SizeLimits :=
  { max_rows := 0, max_bytes := 0, overflow_mode := OverflowMode.THROW }

/-- A header with the columns `a` and `b`. -/
def headerAB : Block := { names := ["a", "b"] }

/-- A pipeline with two main lanes and a totals lane, nothing invoked on it yet. -/
def twoLanes : QueryPipeline :=
  { header := headerAB
    streams := [Port.source 0, Port.source 1]
    totals := some (Port.source 2)
    extremes := none
    calls := [] }

/-- An input descriptor over several lanes with no column known to be distinct. -/
def plainInput : DataStream :=
  { header := headerAB, distinct_columns := ∅, has_single_port := false }

/-- An input descriptor over several lanes whose column `a` is known to be distinct. -/
def distinctInput : DataStream :=
  { header := headerAB, distinct_columns := {"a"}, has_single_port := false }

/-- A sort-prefix descriptor over the single column `name`. -/
def sortedBy (name : String) : InputOrderInfo :=
  { order_key_prefix_descr := [{ column_name := name, direction := 1, nulls_direction := 1 }]
    direction := 1 }

/-- The loop of `checkColumnsAlreadyDistinct` started from any flag value: the result
is the flag, cleared if some name is missing from the set. -/
theorem checkLoop_eq (columns : Names) (distinct_names : NameSet) (flag : Bool) :
    columns.foldl
      (fun columns_already_distinct name =>
        if NameSet.count distinct_names name == 0 then false else columns_already_distinct)
      flag
      = (flag && decide (∀ name ∈ columns, name ∈ distinct_names)) := by
  induction columns generalizing flag with
  | nil => simp
  | cons name rest ih =>
    rw [List.foldl_cons, ih]
    by_cases h : name ∈ distinct_names
    · simp [NameSet.count, h]
    · simp [NameSet.count, h]

/-- The function is the subset test: true exactly when every configured name is in
the set. -/
theorem checkColumnsAlreadyDistinct_iff (columns : Names) (distinct_names : NameSet) :
    checkColumnsAlreadyDistinct columns distinct_names = true
      ↔ ∀ name ∈ columns, name ∈ distinct_names := by
  unfold checkColumnsAlreadyDistinct
  rw [checkLoop_eq]
  simp

/-- C8: `checkColumnsAlreadyDistinct(columns, distinct_names)` is true if and only if
every name in `columns` is a member of `distinct_names`; so two column lists with the
same members (any order, any multiplicity) give the same result, the empty list
gives true against any set, and enlarging the set never turns true into false. -/
theorem checkColumnsAlreadyDistinct_subset_test (columns : Names) (distinct_names : NameSet) :
    (checkColumnsAlreadyDistinct columns distinct_names = true
        ↔ ∀ name ∈ columns, name ∈ distinct_names)
    ∧ (∀ reordered : Names, (∀ name, name ∈ reordered ↔ name ∈ columns) →
        checkColumnsAlreadyDistinct reordered distinct_names
          = checkColumnsAlreadyDistinct columns distinct_names)
    ∧ checkColumnsAlreadyDistinct [] distinct_names = true
    ∧ (∀ larger : NameSet, distinct_names ⊆ larger →
        checkColumnsAlreadyDistinct columns distinct_names = true →
        checkColumnsAlreadyDistinct columns larger = true) := by
  refine ⟨checkColumnsAlreadyDistinct_iff columns distinct_names, ?_, ?_, ?_⟩
  · intro reordered hmem
    rw [Bool.eq_iff_iff, checkColumnsAlreadyDistinct_iff, checkColumnsAlreadyDistinct_iff]
    constructor
    · intro hall name hname
      exact hall name ((hmem name).mpr hname)
    · intro hall name hname
      exact hall name ((hmem name).mp hname)
  · rfl
  · intro larger hsub htrue
    rw [checkColumnsAlreadyDistinct_iff] at htrue ⊢
    intro name hname
    exact hsub (htrue name hname)

/-! ## Properties of `transformPipeline` -/

/-- Dropping the calls already made from the calls after one more leaves that one. -/
theorem drop_length_append_one (before : List PipelineCall) (call : PipelineCall) :
    (before ++ [call]).drop before.length = [call] := by
  simp

/-- Dropping the calls already made from the calls after two more leaves those two. -/
theorem drop_length_append_two (before : List PipelineCall) (first second : PipelineCall) :
    (before ++ [first] ++ [second]).drop before.length = [first, second] := by
  simp

/-- A final instance whose columns are not already distinct collapses the lanes and
attaches the hash-set operator. -/
theorem transformPipeline_final (step : DistinctStep) (pipeline : QueryPipeline)
    (h : checkColumnsAlreadyDistinct step.columns step.input_stream.distinct_columns = false)
    (hpre : step.pre_distinct = false) :
    step.transformPipeline pipeline =
      { pipeline with
        streams := [Port.transform (Processor.DistinctTransform pipeline.header
          step.set_size_limits step.limit_hint step.columns) (Port.resize pipeline.streams 1 0)]
        calls := pipeline.calls ++ [PipelineCall.resize 1] ++ [PipelineCall.addSimpleTransform] } := by
  cases hinfo : step.distinct_info <;>
    simp [DistinctStep.transformPipeline, h, hpre, hinfo, QueryPipeline.resize,
      QueryPipeline.addSimpleTransform, List.range_succ]

/-- A pre-distinct instance with a sort-prefix descriptor, columns not already
distinct, attaches the sorted-prefix operator to every main lane. -/
theorem transformPipeline_pre_sorted (step : DistinctStep) (pipeline : QueryPipeline)
    (distinct_info : InputOrderInfo)
    (h : checkColumnsAlreadyDistinct step.columns step.input_stream.distinct_columns = false)
    (hpre : step.pre_distinct = true) (hinfo : step.distinct_info = some distinct_info) :
    step.transformPipeline pipeline =
      { pipeline with
        streams := pipeline.streams.map (Port.transform (Processor.DistinctSortedTransform
          pipeline.header step.set_size_limits step.limit_hint
          distinct_info.order_key_prefix_descr step.columns))
        calls := pipeline.calls ++ [PipelineCall.addSimpleTransform] } := by
  simp [DistinctStep.transformPipeline, h, hpre, hinfo, QueryPipeline.addSimpleTransform]

/-- A pre-distinct instance without a sort-prefix descriptor, columns not already
distinct, attaches the hash-set operator to every main lane. -/
theorem transformPipeline_pre_hash (step : DistinctStep) (pipeline : QueryPipeline)
    (h : checkColumnsAlreadyDistinct step.columns step.input_stream.distinct_columns = false)
    (hpre : step.pre_distinct = true) (hinfo : step.distinct_info = none) :
    step.transformPipeline pipeline =
      { pipeline with
        streams := pipeline.streams.map (Port.transform (Processor.DistinctTransform
          pipeline.header step.set_size_limits step.limit_hint step.columns))
        calls := pipeline.calls ++ [PipelineCall.addSimpleTransform] } := by
  simp [DistinctStep.transformPipeline, h, hpre, hinfo, QueryPipeline.addSimpleTransform]

/-- C3: a step whose configured columns are all members of the input's
known-distinct columns leaves the pipeline exactly as it was, for either value of
the pre-distinct flag and with or without a sort-prefix descriptor: no operation is
invoked (no resize, no transform), so every output port, and with it the chunk
sequence it carries, is the input one. -/
theorem transformPipeline_already_distinct_unchanged (step : DistinctStep)
    (pipeline : QueryPipeline)
    (h : checkColumnsAlreadyDistinct step.columns step.input_stream.distinct_columns = true) :
    step.transformPipeline pipeline = pipeline
      ∧ pipeline.callsSince (step.transformPipeline pipeline) = [] := by
  have hsame : step.transformPipeline pipeline = pipeline := by
    simp [DistinctStep.transformPipeline, h]
  rw [hsame]
  simp [QueryPipeline.callsSince]

/-- Witness of C3: a pre-distinct step with a sort-prefix descriptor, distinct on the
column `a` that its input already knows to be distinct, on a two-lane pipeline. -/
theorem transformPipeline_already_distinct_unchanged_witness :
    checkColumnsAlreadyDistinct ["a"] distinctInput.distinct_columns = true
      ∧ (DistinctStep.new distinctInput unlimited 0 ["a"] true
            (some (sortedBy "a"))).transformPipeline twoLanes = twoLanes
      ∧ twoLanes.callsSince ((DistinctStep.new distinctInput unlimited 0 ["a"] true
            (some (sortedBy "a"))).transformPipeline twoLanes) = [] :=
  ⟨by decide,
    transformPipeline_already_distinct_unchanged
      (DistinctStep.new distinctInput unlimited 0 ["a"] true (some (sortedBy "a")))
      twoLanes (by decide)⟩

/-- Counterexample to C1 as stated: a final step (pre_distinct = false) distinct on
`a`, not already distinct, with a sort-prefix descriptor over `a` (a subset of the
configured columns): the one main lane left carries the hash-set operator, none
carries the sorted-prefix operator. -/
theorem transformPipeline_sorted_fails_for_final :
    checkColumnsAlreadyDistinct ["a"] plainInput.distinct_columns = false
      ∧ (∀ name ∈ (sortedBy "a").columnNames, name ∈ ["a"])
      ∧ ((DistinctStep.new plainInput unlimited 0 ["a"] false
            (some (sortedBy "a"))).transformPipeline twoLanes).streams
          = [Port.transform (Processor.DistinctTransform headerAB unlimited 0 ["a"])
              (Port.resize [Port.source 0, Port.source 1] 1 0)]
      ∧ ((DistinctStep.new plainInput unlimited 0 ["a"] false
            (some (sortedBy "a"))).transformPipeline twoLanes).streams.any
              Port.isDistinctSorted = false := by
  refine ⟨by decide, by decide, rfl, by decide⟩

/-- C1, amended: for a step whose configured columns are not already distinct and
that has a sort-prefix descriptor whose columns are a subset of the configured
columns: a pre-distinct instance attaches the sorted-prefix operator
(`DistinctSortedTransform`, built from the descriptor's sort description), and not
the hash-set operator, to every main lane and to no other lane; a final instance
collapses the main lanes and attaches the hash-set operator to the single lane. -/
theorem transformPipeline_sorted_when_pre_distinct (step : DistinctStep)
    (pipeline : QueryPipeline) (distinct_info : InputOrderInfo)
    (h : checkColumnsAlreadyDistinct step.columns step.input_stream.distinct_columns = false)
    (hinfo : step.distinct_info = some distinct_info)
    (_hsubset : ∀ name ∈ distinct_info.columnNames, name ∈ step.columns) :
    (step.pre_distinct = true →
        (step.transformPipeline pipeline).streams
            = pipeline.streams.map (Port.transform (Processor.DistinctSortedTransform
                pipeline.header step.set_size_limits step.limit_hint
                distinct_info.order_key_prefix_descr step.columns))
          ∧ (∀ port ∈ (step.transformPipeline pipeline).streams,
              port.isDistinctSorted = true ∧ port.isDistinctHash = false)
          ∧ (step.transformPipeline pipeline).totals = pipeline.totals
          ∧ (step.transformPipeline pipeline).extremes = pipeline.extremes)
      ∧ (step.pre_distinct = false →
        (step.transformPipeline pipeline).streams
            = [Port.transform (Processor.DistinctTransform pipeline.header
                step.set_size_limits step.limit_hint step.columns)
                (Port.resize pipeline.streams 1 0)]) := by
  constructor
  · intro hpre
    rw [transformPipeline_pre_sorted step pipeline distinct_info h hpre hinfo]
    refine ⟨rfl, ?_, rfl, rfl⟩
    intro port hport
    simp only [List.mem_map] at hport
    obtain ⟨input, _, rfl⟩ := hport
    exact ⟨rfl, rfl⟩
  · intro hpre
    rw [transformPipeline_final step pipeline h hpre]

/-- Witness of C1, amended: a pre-distinct step distinct on `a` with a sort-prefix
descriptor over `a`, on a two-lane pipeline. -/
theorem transformPipeline_sorted_when_pre_distinct_witness :
    checkColumnsAlreadyDistinct ["a"] plainInput.distinct_columns = false
    ∧ (∀ name ∈ (sortedBy "a").columnNames, name ∈ ["a"])
    ∧ ((DistinctStep.new plainInput unlimited 0 ["a"] true
          (some (sortedBy "a"))).transformPipeline twoLanes).streams
      = [Port.transform (Processor.DistinctSortedTransform headerAB unlimited 0
            (sortedBy "a").order_key_prefix_descr ["a"]) (Port.source 0),
         Port.transform (Processor.DistinctSortedTransform headerAB unlimited 0
            (sortedBy "a").order_key_prefix_descr ["a"]) (Port.source 1)] :=
  ⟨by decide, by decide,
    ((transformPipeline_sorted_when_pre_distinct
      (DistinctStep.new plainInput unlimited 0 ["a"] true (some (sortedBy "a")))
      twoLanes (sortedBy "a") (by decide) rfl (by decide)).1 rfl).1⟩

/-- C5: when the configured columns are not already distinct, `transformPipeline`
invokes `resize(1)` if and only if the instance is final; a final instance invokes
it before `addSimpleTransform`, so the operator sits on the single lane that the
collapse of all former main lanes left; a pre-distinct instance invokes no resize
at all and attaches one operator to each existing main lane. -/
theorem transformPipeline_resizes_iff_final (step : DistinctStep) (pipeline : QueryPipeline)
    (h : checkColumnsAlreadyDistinct step.columns step.input_stream.distinct_columns = false) :
    (PipelineCall.resize 1 ∈ pipeline.callsSince (step.transformPipeline pipeline)
        ↔ step.pre_distinct = false)
      ∧ (step.pre_distinct = false →
          pipeline.callsSince (step.transformPipeline pipeline)
              = [PipelineCall.resize 1, PipelineCall.addSimpleTransform]
            ∧ (step.transformPipeline pipeline).streams.length = 1
            ∧ ∃ processor, (step.transformPipeline pipeline).streams
                = [Port.transform processor (Port.resize pipeline.streams 1 0)])
      ∧ (step.pre_distinct = true →
          pipeline.callsSince (step.transformPipeline pipeline)
              = [PipelineCall.addSimpleTransform]
            ∧ (∀ num_streams, PipelineCall.resize num_streams
                ∉ pipeline.callsSince (step.transformPipeline pipeline))
            ∧ (step.transformPipeline pipeline).streams.length = pipeline.streams.length
            ∧ ∃ processor, (step.transformPipeline pipeline).streams
                = pipeline.streams.map (Port.transform processor)) := by
  have hfinal : step.pre_distinct = false →
      pipeline.callsSince (step.transformPipeline pipeline)
          = [PipelineCall.resize 1, PipelineCall.addSimpleTransform]
        ∧ (step.transformPipeline pipeline).streams.length = 1
        ∧ ∃ processor, (step.transformPipeline pipeline).streams
            = [Port.transform processor (Port.resize pipeline.streams 1 0)] := by
    intro hpre
    rw [transformPipeline_final step pipeline h hpre]
    exact ⟨drop_length_append_two _ _ _, rfl, _, rfl⟩
  have hlocal : step.pre_distinct = true →
      pipeline.callsSince (step.transformPipeline pipeline)
          = [PipelineCall.addSimpleTransform]
        ∧ (step.transformPipeline pipeline).streams.length = pipeline.streams.length
        ∧ ∃ processor, (step.transformPipeline pipeline).streams
            = pipeline.streams.map (Port.transform processor) := by
    intro hpre
    cases hinfo : step.distinct_info with
    | none =>
      rw [transformPipeline_pre_hash step pipeline h hpre hinfo]
      exact ⟨drop_length_append_one _ _, by simp, _, rfl⟩
    | some distinct_info =>
      rw [transformPipeline_pre_sorted step pipeline distinct_info h hpre hinfo]
      exact ⟨drop_length_append_one _ _, by simp, _, rfl⟩
  refine ⟨?_, hfinal, ?_⟩
  · cases hpre : step.pre_distinct with
    | false => simp [(hfinal hpre).1]
    | true => simp [(hlocal hpre).1]
  · intro hpre
    obtain ⟨hcalls, hlen, hstreams⟩ := hlocal hpre
    refine ⟨hcalls, ?_, hlen, hstreams⟩
    intro num_streams
    simp [hcalls]

/-- Witness of C5: a final step distinct on `a`, not already distinct, on a two-lane
pipeline: `resize(1)` is among the invoked operations and one lane is left. -/
theorem transformPipeline_resizes_iff_final_witness :
    checkColumnsAlreadyDistinct ["a"] plainInput.distinct_columns = false
      ∧ PipelineCall.resize 1 ∈ twoLanes.callsSince
          ((DistinctStep.new plainInput unlimited 0 ["a"] false none).transformPipeline twoLanes)
      ∧ ((DistinctStep.new plainInput unlimited 0 ["a"] false none).transformPipeline
          twoLanes).streams.length = 1 :=
  ⟨by decide,
    (transformPipeline_resizes_iff_final
      (DistinctStep.new plainInput unlimited 0 ["a"] false none) twoLanes (by decide)).1.mpr rfl,
    ((transformPipeline_resizes_iff_final
      (DistinctStep.new plainInput unlimited 0 ["a"] false none) twoLanes
        (by decide)).2.1 rfl).2.1⟩

/-- Counterexample to C6 as stated: a pre-distinct step distinct on `a`, not already
distinct, with a sort-prefix descriptor over `b`, which is not a subset of the
configured columns: every main lane carries the sorted-prefix operator, none the
hash-set operator. -/
theorem transformPipeline_hash_fails_for_pre_distinct :
    checkColumnsAlreadyDistinct ["a"] plainInput.distinct_columns = false
      ∧ ¬ (∀ name ∈ (sortedBy "b").columnNames, name ∈ ["a"])
      ∧ ((DistinctStep.new plainInput unlimited 0 ["a"] true
            (some (sortedBy "b"))).transformPipeline twoLanes).streams
          = [Port.transform (Processor.DistinctSortedTransform headerAB unlimited 0
                (sortedBy "b").order_key_prefix_descr ["a"]) (Port.source 0),
             Port.transform (Processor.DistinctSortedTransform headerAB unlimited 0
                (sortedBy "b").order_key_prefix_descr ["a"]) (Port.source 1)]
      ∧ ((DistinctStep.new plainInput unlimited 0 ["a"] true
            (some (sortedBy "b"))).transformPipeline twoLanes).streams.any
              Port.isDistinctHash = false := by
  refine ⟨by decide, by decide, rfl, by decide⟩

/-- C6, amended: for a step whose configured columns are not already distinct, if no
sort-prefix descriptor is present (whatever the pre-distinct flag), or one is
present whose columns are not a subset of the configured columns and the instance
is final, then `transformPipeline` attaches the hash-set operator
(`DistinctTransform`) to the main lanes (each existing one for a pre-distinct
instance, the single collapsed one for a final instance), attaches no
sorted-prefix operator, and leaves the totals and extremes lanes alone. -/
theorem transformPipeline_hash_when_no_info_or_final (step : DistinctStep)
    (pipeline : QueryPipeline)
    (h : checkColumnsAlreadyDistinct step.columns step.input_stream.distinct_columns = false)
    (hcase : step.distinct_info = none
      ∨ ∃ distinct_info, step.distinct_info = some distinct_info
          ∧ ¬ (∀ name ∈ distinct_info.columnNames, name ∈ step.columns)
          ∧ step.pre_distinct = false) :
    (step.transformPipeline pipeline).streams
        = (if step.pre_distinct then pipeline.streams
            else [Port.resize pipeline.streams 1 0]).map
          (Port.transform (Processor.DistinctTransform pipeline.header
            step.set_size_limits step.limit_hint step.columns))
      ∧ (∀ port ∈ (step.transformPipeline pipeline).streams,
          port.isDistinctHash = true ∧ port.isDistinctSorted = false)
      ∧ (step.transformPipeline pipeline).totals = pipeline.totals
      ∧ (step.transformPipeline pipeline).extremes = pipeline.extremes := by
  have hstreams : step.transformPipeline pipeline =
      { pipeline with
        streams := (if step.pre_distinct then pipeline.streams
            else [Port.resize pipeline.streams 1 0]).map
          (Port.transform (Processor.DistinctTransform pipeline.header
            step.set_size_limits step.limit_hint step.columns))
        calls := (step.transformPipeline pipeline).calls } := by
    cases hpre : step.pre_distinct with
    | false =>
      rw [transformPipeline_final step pipeline h hpre]
      simp
    | true =>
      rcases hcase with hnone | ⟨distinct_info, _, _, hfinal⟩
      · rw [transformPipeline_pre_hash step pipeline h hpre hnone]
        simp
      · rw [hpre] at hfinal
        cases hfinal
  rw [hstreams]
  refine ⟨rfl, ?_, rfl, rfl⟩
  intro port hport
  simp only [List.mem_map] at hport
  obtain ⟨input, _, rfl⟩ := hport
  exact ⟨rfl, rfl⟩

/-- Witness of C6, amended: a final step distinct on `a` with a sort-prefix descriptor
over `b`, on a two-lane pipeline. -/
theorem transformPipeline_hash_when_no_info_or_final_witness :
    checkColumnsAlreadyDistinct ["a"] plainInput.distinct_columns = false
      ∧ ¬ (∀ name ∈ (sortedBy "b").columnNames, name ∈ ["a"])
      ∧ ((DistinctStep.new plainInput unlimited 0 ["a"] false
            (some (sortedBy "b"))).transformPipeline twoLanes).streams
          = [Port.transform (Processor.DistinctTransform headerAB unlimited 0 ["a"])
              (Port.resize [Port.source 0, Port.source 1] 1 0)] :=
  ⟨by decide, by decide,
    (transformPipeline_hash_when_no_info_or_final
      (DistinctStep.new plainInput unlimited 0 ["a"] false (some (sortedBy "b"))) twoLanes
      (by decide) (Or.inr ⟨sortedBy "b", rfl, by decide, rfl⟩)).1⟩

/-! ## Properties of the constructor -/

/-- Inserting names that the set already holds leaves the set as it is. -/
theorem insertColumns_of_mem (columns : Names) (distinct_columns : NameSet)
    (hall : ∀ name ∈ columns, name ∈ distinct_columns) :
    DistinctStep.insertColumns columns distinct_columns = distinct_columns := by
  unfold DistinctStep.insertColumns
  induction columns with
  | nil => rfl
  | cons name rest ih =>
    have hname : name ∈ distinct_columns := hall name (List.mem_cons_self name rest)
    rw [List.foldl_cons, Finset.insert_eq_of_mem hname]
    exact ih (fun other hother => hall other (List.mem_cons_of_mem name hother))

/-- The output descriptor of the base step when the columns are not already
distinct: its distinct-column set is empty. -/
theorem createOutputStream_not_distinct (input_stream : DataStream) (columns : Names)
    (pre_distinct : Bool)
    (h : checkColumnsAlreadyDistinct columns input_stream.distinct_columns = false) :
    (ITransformingStep.createOutputStream input_stream input_stream.header
      (getTraits pre_distinct
        (checkColumnsAlreadyDistinct columns input_stream.distinct_columns))).distinct_columns
      = ∅ := by
  simp [ITransformingStep.createOutputStream, getTraits, h]

/-- When the columns are not already distinct the constructor body does not run, for
either value of the pre-distinct flag: the output set stays empty. -/
theorem new_output_empty_of_not_distinct (input_stream : DataStream)
    (set_size_limits : SizeLimits) (limit_hint : Nat) (columns : Names) (pre_distinct : Bool)
    (distinct_info : InputOrderInfoPtr)
    (h : checkColumnsAlreadyDistinct columns input_stream.distinct_columns = false) :
    (DistinctStep.new input_stream set_size_limits limit_hint columns pre_distinct
      distinct_info).output_stream.distinct_columns = ∅ := by
  simp [DistinctStep.new, DistinctStep.buildsDistinctSet, NameSet.empty,
    ITransformingStep.createOutputStream, getTraits, h]

/-- C2 at its failing input: a final step (pre_distinct = false) distinct on `a` over
an input with no known-distinct column: the constructor body does not run, the
output set is empty and does not contain the configured column `a`. -/
theorem new_final_output_lacks_configured_column :
    checkColumnsAlreadyDistinct ["a"] plainInput.distinct_columns = false
      ∧ DistinctStep.buildsDistinctSet
          (ITransformingStep.createOutputStream plainInput plainInput.header
            (getTraits false (checkColumnsAlreadyDistinct ["a"] plainInput.distinct_columns)))
          plainInput false = false
      ∧ (DistinctStep.new plainInput unlimited 0 ["a"] false none).output_stream.distinct_columns
          = ∅
      ∧ "a" ∉ (DistinctStep.new plainInput unlimited 0 ["a"] false
          none).output_stream.distinct_columns := by
  refine ⟨by decide, by decide, by decide, by decide⟩

/-- C4: when every configured column is a member of the input's known-distinct
columns, the output descriptor's distinct-column set after construction equals the
input's, for every value of `pre_distinct` and of the input's `has_single_port`. -/
theorem new_output_eq_input_of_already_distinct (input_stream : DataStream)
    (set_size_limits : SizeLimits) (limit_hint : Nat) (columns : Names) (pre_distinct : Bool)
    (distinct_info : InputOrderInfoPtr)
    (h : checkColumnsAlreadyDistinct columns input_stream.distinct_columns = true) :
    (DistinctStep.new input_stream set_size_limits limit_hint columns pre_distinct
      distinct_info).output_stream.distinct_columns = input_stream.distinct_columns := by
  have hall := (checkColumnsAlreadyDistinct_iff columns input_stream.distinct_columns).mp h
  simp only [DistinctStep.new, ITransformingStep.createOutputStream, getTraits, h, if_true]
  split
  · exact insertColumns_of_mem columns input_stream.distinct_columns hall
  · rfl

/-- Witness of C4: a final step distinct on `a` over an input whose column `a` is
already known to be distinct; here the constructor body runs. -/
theorem new_output_eq_input_of_already_distinct_witness :
    checkColumnsAlreadyDistinct ["a"] distinctInput.distinct_columns = true
      ∧ DistinctStep.buildsDistinctSet
          (ITransformingStep.createOutputStream distinctInput distinctInput.header
            (getTraits false (checkColumnsAlreadyDistinct ["a"] distinctInput.distinct_columns)))
          distinctInput false = true
      ∧ (DistinctStep.new distinctInput unlimited 0 ["a"] false none).output_stream.distinct_columns
          = distinctInput.distinct_columns :=
  ⟨by decide, by decide,
    new_output_eq_input_of_already_distinct distinctInput unlimited 0 ["a"] false none
      (by decide)⟩

/-- C7: for a pre-distinct instance the constructor body runs (the configured
columns are inserted) only if the input stream has a single port; when the input
has several lanes the output set is exactly the set the base step left, and no
configured column has been added to it. -/
theorem new_pre_distinct_output (input_stream : DataStream) (set_size_limits : SizeLimits)
    (limit_hint : Nat) (columns : Names) (distinct_info : InputOrderInfoPtr) :
    (DistinctStep.buildsDistinctSet
          (ITransformingStep.createOutputStream input_stream input_stream.header
            (getTraits true (checkColumnsAlreadyDistinct columns input_stream.distinct_columns)))
          input_stream true = true
        → input_stream.has_single_port = true)
      ∧ (input_stream.has_single_port = false →
          (DistinctStep.new input_stream set_size_limits limit_hint columns true
              distinct_info).output_stream.distinct_columns
            = (ITransformingStep.createOutputStream input_stream input_stream.header
                (getTraits true
                  (checkColumnsAlreadyDistinct columns
                    input_stream.distinct_columns))).distinct_columns
          ∧ ∀ name ∈ columns,
              name ∈ (DistinctStep.new input_stream set_size_limits limit_hint columns true
                distinct_info).output_stream.distinct_columns
              → name ∈ (ITransformingStep.createOutputStream input_stream input_stream.header
                  (getTraits true
                    (checkColumnsAlreadyDistinct columns
                      input_stream.distinct_columns))).distinct_columns) := by
  constructor
  · intro hruns
    simp [DistinctStep.buildsDistinctSet] at hruns
    exact hruns.2
  · intro hlanes
    have hsame : (DistinctStep.new input_stream set_size_limits limit_hint columns true
          distinct_info).output_stream
        = ITransformingStep.createOutputStream input_stream input_stream.header
            (getTraits true
              (checkColumnsAlreadyDistinct columns input_stream.distinct_columns)) := by
      simp [DistinctStep.new, DistinctStep.buildsDistinctSet, hlanes]
    rw [hsame]
    exact ⟨rfl, fun _ _ hmem => hmem⟩

/-- Witness of C7: a pre-distinct step distinct on `a` and `b` over a several-lane
input that knows only `a` to be distinct: the columns are not already distinct, so
the base step leaves the output set empty; the body does not run, the output set is
that empty set and `b` is not in it. -/
theorem new_pre_distinct_output_witness :
    distinctInput.has_single_port = false
      ∧ (DistinctStep.new distinctInput unlimited 0 ["a", "b"] true
            none).output_stream.distinct_columns
          = (ITransformingStep.createOutputStream distinctInput distinctInput.header
              (getTraits true
                (checkColumnsAlreadyDistinct ["a", "b"]
                  distinctInput.distinct_columns))).distinct_columns
      ∧ "b" ∉ (DistinctStep.new distinctInput unlimited 0 ["a", "b"] true
            none).output_stream.distinct_columns :=
  ⟨rfl, ((new_pre_distinct_output distinctInput unlimited 0 ["a", "b"] none).2 rfl).1,
    by decide⟩

/-! ## Traits against `transformPipeline` -/

/-- C10: the traits the constructor hands to the base step agree with what
`transformPipeline` of the constructed step does on any pipeline:
`returns_single_stream` is true exactly when `resize(1)` is invoked,
`preserves_number_of_streams` exactly when it is not (so each trait is the negation
of the other), and `preserves_distinct_columns` is true exactly when no transform is
added, in which case the pipeline is returned as it was. -/
theorem traits_agree_with_transformPipeline (input_stream : DataStream)
    (set_size_limits : SizeLimits) (limit_hint : Nat) (columns : Names) (pre_distinct : Bool)
    (distinct_info : InputOrderInfoPtr) (pipeline : QueryPipeline) :
    ((getTraits pre_distinct
          (checkColumnsAlreadyDistinct columns input_stream.distinct_columns)).returns_single_stream
          = true
        ↔ PipelineCall.resize 1 ∈ pipeline.callsSince
            ((DistinctStep.new input_stream set_size_limits limit_hint columns pre_distinct
              distinct_info).transformPipeline pipeline))
      ∧ ((getTraits pre_distinct
          (checkColumnsAlreadyDistinct columns
            input_stream.distinct_columns)).preserves_number_of_streams = true
        ↔ PipelineCall.resize 1 ∉ pipeline.callsSince
            ((DistinctStep.new input_stream set_size_limits limit_hint columns pre_distinct
              distinct_info).transformPipeline pipeline))
      ∧ (getTraits pre_distinct
          (checkColumnsAlreadyDistinct columns
            input_stream.distinct_columns)).preserves_number_of_streams
          = !(getTraits pre_distinct
            (checkColumnsAlreadyDistinct columns
              input_stream.distinct_columns)).returns_single_stream
      ∧ ((getTraits pre_distinct
          (checkColumnsAlreadyDistinct columns
            input_stream.distinct_columns)).preserves_distinct_columns = true
        ↔ PipelineCall.addSimpleTransform ∉ pipeline.callsSince
            ((DistinctStep.new input_stream set_size_limits limit_hint columns pre_distinct
              distinct_info).transformPipeline pipeline))
      ∧ ((getTraits pre_distinct
          (checkColumnsAlreadyDistinct columns
            input_stream.distinct_columns)).preserves_distinct_columns = true
        → (DistinctStep.new input_stream set_size_limits limit_hint columns pre_distinct
              distinct_info).transformPipeline pipeline = pipeline) := by
  have hcolumns : (DistinctStep.new input_stream set_size_limits limit_hint columns
      pre_distinct distinct_info).columns = columns := rfl
  have hinput : (DistinctStep.new input_stream set_size_limits limit_hint columns
      pre_distinct distinct_info).input_stream = input_stream := rfl
  have hflag : (DistinctStep.new input_stream set_size_limits limit_hint columns
      pre_distinct distinct_info).pre_distinct = pre_distinct := rfl
  have hinfo : (DistinctStep.new input_stream set_size_limits limit_hint columns
      pre_distinct distinct_info).distinct_info = distinct_info := rfl
  generalize DistinctStep.new input_stream set_size_limits limit_hint columns
      pre_distinct distinct_info = step at hcolumns hinput hflag hinfo
  cases h : checkColumnsAlreadyDistinct columns input_stream.distinct_columns with
  | true =>
    have hsame : step.transformPipeline pipeline = pipeline := by
      simp [DistinctStep.transformPipeline, hcolumns, hinput, h]
    rw [hsame]
    simp [getTraits, QueryPipeline.callsSince]
  | false =>
    have hstep : checkColumnsAlreadyDistinct step.columns step.input_stream.distinct_columns
        = false := by rw [hcolumns, hinput]; exact h
    cases hpre : pre_distinct with
    | false =>
      rw [hpre] at hflag
      rw [transformPipeline_final step pipeline hstep hflag]
      simp [getTraits, QueryPipeline.callsSince]
    | true =>
      rw [hpre] at hflag
      cases hdesc : distinct_info with
      | none =>
        rw [hdesc] at hinfo
        rw [transformPipeline_pre_hash step pipeline hstep hflag hinfo]
        simp [getTraits, QueryPipeline.callsSince]
      | some info =>
        rw [hdesc] at hinfo
        rw [transformPipeline_pre_sorted step pipeline info hstep hflag hinfo]
        simp [getTraits, QueryPipeline.callsSince]

/-! ## Properties of `updateMinTime` -/

/-- Method `updateMinTime` never restarts the watch: the comparison of the millisecond
values reads `min_time` after it was overwritten with the candidate, so it compares
the candidate with itself. -/
theorem updateMinTime_never_restarts (stats : ConnectionTestStats) (min_time_candidate : Nat) :
    (stats.updateMinTime min_time_candidate).min_time_watch = stats.min_time_watch := by
  unfold ConnectionTestStats.updateMinTime
  split
  · simp
  · rfl

/-- C9 at its failing input: previous minimum 5000 microseconds, candidate 1000: the
candidate lowers the millisecond value from 5 to 1, the minimum is updated to 1000,
and the watch is not restarted. -/
theorem updateMinTime_no_restart_on_lower_millisecond :
    1000 / 1000 < 5000 / 1000
      ∧ (ConnectionTestStats.updateMinTime
          { min_time := 5000, min_time_watch := { restarts := 0 } } 1000).min_time = 1000
      ∧ (ConnectionTestStats.updateMinTime
          { min_time := 5000, min_time_watch := { restarts := 0 } } 1000).min_time_watch
          = { restarts := 0 } := by
  refine ⟨by decide, by decide, by decide⟩

/-! ## Properties of `JSONString` -/

/-- When `4 * cur_padding` does not wrap but exceeds `max_size()`, `asString` on a map
that is not empty leaves with `std::length_error`. -/
theorem asString_length_error (limits : StringLimits) (padding cur_padding : Nat)
    (key value : String) (rest : List (String × String))
    (hsmall : cur_padding < 2 ^ 62) (hlong : limits.max_size < 4 * cur_padding) :
    JSONString.asString limits { content := (key, value) :: rest, padding := padding }
        cur_padding
      = Except.error Failure.length_error := by
  have hlt : cur_padding * 4 < SIZE_RANGE := by
    unfold SIZE_RANGE
    omega
  have hpad : pad limits cur_padding = Except.error Failure.length_error := by
    rw [pad, Nat.mod_eq_of_lt hlt, Nat.mul_comm, newSpaces, if_pos hlong]
  simp only [JSONString.asString, JSONString.asStringLoop, hpad]

end DB
